import Mathlib

/-!
Shallow embedding of `src/frontend/script.js` (and its duplicate
`src/unnamed/part_000`) from the Smart-Docs-IR front-end: the search
request builder (`performSearch`), the result renderer
(`displayResults`, `toggleReadMore`), the map marker manager
(`updateMap`) and the autocomplete client (`handleAutocomplete`).

Modelling conventions:
  * JS strings are Lean `String`; an empty string is falsy, so the JS
    idiom `x || dflt` on strings becomes `jsOrStr`.
  * Optional JS object fields become `Option`; truthiness of an object
    is `Option.isSome`.
  * JS numbers carrying scores and coordinates become `ℚ`; truthiness
    of a number is `≠ 0` (the script never produces NaN here).
  * `Number.prototype.toFixed(d)` becomes `jsToFixed d`, the idealised
    fixed-point rendering over `ℚ` (round to nearest, ties away from
    zero towards the larger integer, per ECMA-262).
  * `new Date(s).toLocaleDateString()` is locale dependent; its output
    is modelled abstractly by the constructor `DateDisplay.localeDate`
    applied to the raw date string, and the `'N/A'` fallback by
    `DateDisplay.na`. No claim inspects the locale rendering itself.
  * DOM writes and other side effects of `performSearch` become an
    explicit event trace (`Ev`) plus a page-state transformer.
-/

namespace SmartDocs

/-- `String.prototype.trim()`: strips leading and trailing whitespace.
Implemented by structural recursion over the character list so that the
kernel can evaluate it on concrete inputs. -/
def jsTrim (s : String) : String :=
  ⟨((s.data.dropWhile Char.isWhitespace).reverse.dropWhile
      Char.isWhitespace).reverse⟩

/-- JS `x || dflt` for an optional string field: `undefined` and `""`
are falsy. -/
def jsOrStr (x : Option String) (dflt : String) : String :=
  match x with
  | none => dflt
  | some s => if s = "" then dflt else s

/-- Truthiness test of an optional string field (`source.date ? _ : _`). -/
def jsTruthyStr (x : Option String) : Bool :=
  match x with
  | none => false
  | some s => s != ""

/-- Renders the nonnegative scaled integer `m` as `m / 10^d` with
exactly `d` digits after the decimal point. -/
def jsToFixedRender (d : ℕ) (m : ℕ) : String :=
  toString (m / 10 ^ d) ++ "." ++ (toString (10 ^ d + m % 10 ^ d)).drop 1

/-- `Number.prototype.toFixed(d)` over `ℚ`: pick the integer `n` with
`n / 10^d` closest to the input, the larger one on ties (ECMA-262),
i.e. `n = ⌊x·10^d + 1/2⌋`, computed here as a floor division on the
numerator and denominator so that the kernel can evaluate it. -/
def jsToFixed (d : ℕ) (x : ℚ) : String :=
  let n : ℤ := Int.fdiv (2 * x.num * 10 ^ d + x.den) (2 * x.den)
  if n < 0 then "-" ++ jsToFixedRender d n.natAbs
  else jsToFixedRender d n.toNat

/-- A latitude/longitude pair (`_source.geopoint`). -/
structure Geopoint where
  lat : ℚ
  lon : ℚ
deriving DecidableEq, Repr

/-- One author entry (`{first, last}`). -/
structure Author where
  first : String
  last : String
deriving DecidableEq, Repr

/-- One georeference tag (`{name}`). -/
structure Georeference where
  name : String
deriving DecidableEq, Repr

/-- One temporal-expression tag (`{text}`). -/
structure TemporalExpression where
  text : String
deriving DecidableEq, Repr

/-- The `_source` document payload of a hit. -/
structure Source where
  title : Option String
  content : Option String
  date : Option String
  authors : Option (List Author)
  geopoint : Option Geopoint
  georeferences : Option (List Georeference)
  temporalExpressions : Option (List TemporalExpression)
deriving DecidableEq, Repr

/-- One scored search hit (`{_score, _source}`). -/
structure Hit where
  _score : ℚ
  _source : Source
deriving DecidableEq, Repr

/-- The Elasticsearch-style `hits` wrapper object (`{hits: [Hit]}`). -/
structure HitsObj where
  hits : List Hit
deriving DecidableEq, Repr

/-- A parsed backend response body. The script only ever reads
`data.hits`; the flat `results` field appears in the documented
interface and is carried here so that its treatment can be stated. -/
structure SearchResponse where
  hits : Option HitsObj
  results : Option (List Source)
deriving DecidableEq, Repr

/-- The hit list of a response, empty when `hits` is absent. -/
def hitsOf (data : SearchResponse) : List Hit :=
  match data.hits with
  | none => []
  | some w => w.hits

/-- Rendering of a document date: either the `'N/A'` fallback or the
locale rendering of the raw date string. -/
inductive DateDisplay where
  | na
  | localeDate (raw : String)
deriving DecidableEq, Repr

/-- One rendered result card, as built inside `displayResults`. -/
structure Card where
  score : String
  title : String
  authorsLine : String
  dateLine : DateDisplay
  locationLine : String
  preview : String
  full : String
  hasReadMore : Bool
  geoTags : List String
  tempTags : List String
deriving DecidableEq, Repr

/-- The contents of the results container: the explicit empty state
with its message, or the list of cards. -/
inductive ResultsView where
  | emptyState (msg : String)
  | cardList (cards : List Card)
deriving DecidableEq, Repr

/-- The `authors` line: `"First Last"` pairs joined by `", "`, falling
back to `"Unknown"`. -/
def authorsLineOf (authors : Option (List Author)) : String :=
  match authors with
  | some l =>
      if l.length > 0 then
        String.intercalate ", " (l.map (fun a => a.first ++ " " ++ a.last))
      else "Unknown"
  | none => "Unknown"

/-- The location line: 4-decimal lat/lon when a geopoint exists. -/
def locationLineOf (gp : Option Geopoint) : String :=
  match gp with
  | some g => jsToFixed 4 g.lat ++ ", " ++ jsToFixed 4 g.lon
  | none => "N/A"

/-- The date line of a card or popup. -/
def dateLineOf (date : Option String) : DateDisplay :=
  match date with
  | none => .na
  | some s => if s = "" then .na else .localeDate s

/-- Builds one result card from a hit, exactly as the body of the
`hits.map((hit, index) => ...)` callback in `displayResults` does. -/
def mkCard (hit : Hit) : Card :=
  let source := hit._source
  let fullContent := jsOrStr source.content "No content available"
  let truncatedContent :=
    if fullContent.length > 300 then fullContent.take 300 ++ "..." else fullContent
  { score := jsToFixed 2 hit._score
    title := jsOrStr source.title "Untitled Document"
    authorsLine := authorsLineOf source.authors
    dateLine := dateLineOf source.date
    locationLine := locationLineOf source.geopoint
    preview := truncatedContent
    full := fullContent
    hasReadMore := fullContent.length > 300
    geoTags :=
      match source.georeferences with
      | some l => if l.length > 0 then l.map (·.name) else []
      | none => []
    tempTags :=
      match source.temporalExpressions with
      | some l => if l.length > 0 then (l.take 3).map (·.text) else []
      | none => [] }

/-- `displayResults`: returns the results container contents and the
result-count text. -/
def displayResults (data : SearchResponse) : ResultsView × String :=
  match data.hits with
  | none => (.emptyState "No results found", "")
  | some w =>
      if w.hits.length = 0 then (.emptyState "No results found", "")
      else
        (.cardList (w.hits.map mkCard),
         toString w.hits.length ++ " results found")

/-- The per-card DOM state manipulated by `toggleReadMore`: whether the
`.content-full` span is shown instead of the `.content-preview` span,
and the current text of the `.read-more-btn` button. -/
structure CardDom where
  expanded : Bool
  buttonLabel : String
deriving DecidableEq, Repr

/-- A freshly rendered card: preview shown, full content hidden, button
labelled `"Read More"` (the template in `displayResults`). -/
def initCardDom : CardDom :=
  { expanded := false, buttonLabel := "Read More" }

/-- The body of `toggleReadMore` on one card: if the full content is
hidden, show it and relabel the button `"Read Less"`; otherwise go back
to the preview and relabel `"Read More"`. -/
def toggleCard (c : CardDom) : CardDom :=
  if c.expanded = false then { expanded := true, buttonLabel := "Read Less" }
  else { expanded := false, buttonLabel := "Read More" }

/-- `toggleReadMore(index)` acting on the list of per-card DOM states:
only the card at `index` is touched. -/
def toggleReadMore : List CardDom → ℕ → List CardDom
  | [], _ => []
  | c :: cs, 0 => toggleCard c :: cs
  | c :: cs, n + 1 => c :: toggleReadMore cs n

/-- The text a card currently displays, given its static card data and
its DOM state. -/
def displayedText (card : Card) (dom : CardDom) : String :=
  if dom.expanded then card.full else card.preview

/-- The map viewport: either an explicit center/zoom (`setView`) or the
result of the last `fitBounds` call. -/
inductive MapViewport where
  | view (center : ℚ × ℚ) (zoom : ℕ)
  | fitted (bounds : List (ℚ × ℚ))
deriving DecidableEq, Repr

/-- One Leaflet marker created by `updateMap`: its identity (`id`, a
fresh object each time `L.marker` runs), its position, and its bound
popup fields. -/
structure MarkerObj where
  id : ℕ
  pos : ℚ × ℚ
  popupTitle : String
  popupDate : DateDisplay
  popupScore : String
deriving DecidableEq, Repr

/-- The map-side state: the layers currently on the Leaflet map, the
`markers` array owned by the script, a counter for fresh marker
identities, and the viewport. -/
structure MapState where
  mapLayers : List MarkerObj
  markers : List MarkerObj
  nextId : ℕ
  viewport : MapViewport
deriving DecidableEq, Repr

/-- `initializeMap`: centered on (32.2211, 35.2544) at zoom 8, no
markers. -/
def initializeMap : MapState :=
  { mapLayers := [], markers := [], nextId := 0,
    viewport := .view (mkRat 322211 10000, mkRat 352544 10000) 8 }

/-- The guard `source.geopoint && source.geopoint.lat &&
source.geopoint.lon` of `updateMap`: the geopoint object must be
present and both coordinates truthy (nonzero). -/
def geoValid (hit : Hit) : Bool :=
  match hit._source.geopoint with
  | none => false
  | some gp => gp.lat != 0 && gp.lon != 0

/-- The position a valid hit contributes to its marker and to the
bounds list. -/
def gpPos (hit : Hit) : ℚ × ℚ :=
  match hit._source.geopoint with
  | none => (0, 0)
  | some gp => (gp.lat, gp.lon)

/-- The marker built for one valid hit, with identity `n`. -/
def mkMarker (n : ℕ) (hit : Hit) : MarkerObj :=
  { id := n
    pos := gpPos hit
    popupTitle := jsOrStr hit._source.title "Untitled"
    popupDate := dateLineOf hit._source.date
    popupScore := jsToFixed 2 hit._score }

/-- The `data.hits.hits.forEach` loop of `updateMap`: walks the hits
with the fresh-identity counter, pushing a marker and a bounds entry
for each hit passing `geoValid`. Returns (markers, bounds, counter). -/
def addMarkersLoop : List Hit → ℕ → List MarkerObj × List (ℚ × ℚ) × ℕ
  | [], n => ([], [], n)
  | hit :: rest, n =>
      if geoValid hit then
        (mkMarker n hit :: (addMarkersLoop rest (n + 1)).1,
         gpPos hit :: (addMarkersLoop rest (n + 1)).2.1,
         (addMarkersLoop rest (n + 1)).2.2)
      else addMarkersLoop rest n

/-- `updateMap`: removes every owned marker from the map
(`map.removeLayer` over the `markers` array), empties the owned array,
and — when the response has hits — rebuilds one marker per valid hit
and fits the viewport to the collected bounds when nonempty. -/
def updateMap (data : SearchResponse) (st : MapState) : MapState :=
  let cleared := st.mapLayers.filter fun l => st.markers.all fun m => m.id != l.id
  match data.hits with
  | none =>
      { mapLayers := cleared, markers := [], nextId := st.nextId,
        viewport := st.viewport }
  | some w =>
      if w.hits.length = 0 then
        { mapLayers := cleared, markers := [], nextId := st.nextId,
          viewport := st.viewport }
      else
        { mapLayers := cleared ++ (addMarkersLoop w.hits st.nextId).1,
          markers := (addMarkersLoop w.hits st.nextId).1,
          nextId := (addMarkersLoop w.hits st.nextId).2.2,
          viewport :=
            if (addMarkersLoop w.hits st.nextId).2.1.length > 0 then
              .fitted (addMarkersLoop w.hits st.nextId).2.1
            else st.viewport }

/-- The two backend endpoints `performSearch` can target. -/
inductive Endpoint where
  | search
  | spatiotemporal
deriving DecidableEq, Repr

/-- A request URL: its endpoint and its query parameters in insertion
order (`URLSearchParams` preserves append order). -/
structure Request where
  endpoint : Endpoint
  params : List (String × String)
deriving DecidableEq, Repr

/-- The outcome of the `fetch` + `response.json()` pair: a parsed body,
or a transport/parse failure (either throws into the same `catch`). -/
inductive FetchResult where
  | ok (data : SearchResponse)
  | failure
deriving DecidableEq, Repr

/-- The observable side effects `performSearch` emits, in order. -/
inductive Ev where
  | showLoading
  | hideLoading
  | hideAutocompletePanel
  | alert (msg : String)
  | fetchReq (req : Request)
deriving DecidableEq, Repr

/-- The form fields `performSearch` reads from the page. -/
structure SearchForm where
  searchInput : String
  searchType : String
  latInput : String
  lonInput : String
  georefInput : String
  startDate : String
  endDate : String
  distanceInput : String
deriving DecidableEq, Repr

/-- The page state `performSearch` can rewrite: the results container,
the result-count text, and the map state. -/
structure PageState where
  resultsView : ResultsView
  resultCount : String
  mapSt : MapState
deriving DecidableEq, Repr

/-- Applies `displayResults` and `updateMap` to the page, as the
success path of `performSearch` does. -/
def renderResponse (data : SearchResponse) (pg : PageState) : PageState :=
  let (rv, cnt) := displayResults data
  { resultsView := rv, resultCount := cnt, mapSt := updateMap data pg.mapSt }

/-- `performSearch`, with the network modelled as the `FetchResult` the
backend would produce for the dispatched request. Returns the event
trace and the final page state. -/
def performSearch (f : SearchForm) (net : FetchResult) (pg : PageState) :
    List Ev × PageState :=
  let query := jsTrim f.searchInput
  if query = "" then
    ([.alert "Please enter a search query"], pg)
  else
    let lat := f.latInput
    let lon := f.lonInput
    let georef := jsTrim f.georefInput
    let dispatch : Request → List Ev × PageState := fun req =>
      match net with
      | .ok data =>
          ([.showLoading, .hideAutocompletePanel, .fetchReq req, .hideLoading],
           renderResponse data pg)
      | .failure =>
          ([.showLoading, .hideAutocompletePanel, .fetchReq req, .hideLoading,
            .alert "Search failed. Please make sure the backend is running."],
           pg)
    if f.searchType = "text" then
      let ps := [("q", query)]
        ++ (if lat ≠ "" ∧ lon ≠ "" then [("lat", lat), ("lon", lon)] else [])
        ++ (if georef ≠ "" then [("georef", georef)] else [])
      dispatch { endpoint := .search, params := ps }
    else
      if f.startDate = "" ∨ f.endDate = "" ∨ georef = "" then
        ([.showLoading, .hideAutocompletePanel,
          .alert "For spatiotemporal search, please provide required fields",
          .hideLoading],
         pg)
      else
        let searchLat := if lat = "" then "32.2211" else lat
        let searchLon := if lon = "" then "35.2544" else lon
        let distance := if f.distanceInput = "" then "500km" else f.distanceInput
        let ps := [("q", query), ("start", f.startDate), ("end", f.endDate),
                   ("lat", searchLat), ("lon", searchLon),
                   ("distance", distance), ("georef", georef)]
        dispatch { endpoint := .spatiotemporal, params := ps }

/-- The state of the autocomplete suggestion panel after
`handleAutocomplete` runs. -/
inductive AcPanel where
  | hidden
  | shown (titles : List String)
deriving DecidableEq, Repr

/-- `handleAutocomplete` on an input event whose field value is
`value`, with the network modelled as the result the `/autocomplete`
endpoint would return. Produces the `q` parameter of the request
issued (or `none` when no request is made) and the panel state. -/
def handleAutocomplete (value : String) (net : FetchResult) :
    Option String × AcPanel :=
  let query := jsTrim value
  if query.length < 3 then (none, .hidden)
  else
    match net with
    | .ok data =>
        match data.hits with
        | some w =>
            if w.hits.length > 0 then
              (some query,
               .shown (w.hits.map fun h => h._source.title.getD "undefined"))
            else (some query, .hidden)
        | none => (some query, .hidden)
    | .failure => (some query, .hidden)

/-! ### Structure lemmas about the marker loop and `updateMap` -/

lemma addMarkersLoop_pos (hits : List Hit) (n : ℕ) :
    (addMarkersLoop hits n).1.map MarkerObj.pos =
      (hits.filter geoValid).map gpPos := by
  induction hits generalizing n with
  | nil => simp [addMarkersLoop]
  | cons h t ih =>
      by_cases hv : geoValid h
      · simp [addMarkersLoop, hv, mkMarker, ih]
      · simp [addMarkersLoop, hv, ih]

lemma addMarkersLoop_scores (hits : List Hit) (n : ℕ) :
    (addMarkersLoop hits n).1.map MarkerObj.popupScore =
      (hits.filter geoValid).map (fun h => jsToFixed 2 h._score) := by
  induction hits generalizing n with
  | nil => simp [addMarkersLoop]
  | cons h t ih =>
      by_cases hv : geoValid h
      · simp [addMarkersLoop, hv, mkMarker, ih]
      · simp [addMarkersLoop, hv, ih]

lemma addMarkersLoop_bounds (hits : List Hit) (n : ℕ) :
    (addMarkersLoop hits n).2.1 = (hits.filter geoValid).map gpPos := by
  induction hits generalizing n with
  | nil => simp [addMarkersLoop]
  | cons h t ih =>
      by_cases hv : geoValid h
      · simp [addMarkersLoop, hv, ih]
      · simp [addMarkersLoop, hv, ih]

lemma addMarkersLoop_id_ge (hits : List Hit) (n : ℕ) :
    ∀ m ∈ (addMarkersLoop hits n).1, n ≤ m.id := by
  induction hits generalizing n with
  | nil => simp [addMarkersLoop]
  | cons h t ih =>
      by_cases hv : geoValid h
      · intro m hm
        simp only [addMarkersLoop, hv, if_pos, List.mem_cons] at hm
        rcases hm with hm | hm
        · subst hm; exact le_refl _
        · exact le_trans (Nat.le_succ n) (ih (n + 1) m hm)
      · intro m hm
        simp only [addMarkersLoop, hv, if_neg, Bool.false_eq_true,
          ite_false] at hm
        exact ih n m hm

lemma updateMap_markers_pos (data : SearchResponse) (st : MapState) :
    (updateMap data st).markers.map MarkerObj.pos =
      ((hitsOf data).filter geoValid).map gpPos := by
  unfold updateMap hitsOf
  cases hd : data.hits with
  | none => simp
  | some w =>
      by_cases hl : w.hits.length = 0
      · have : w.hits = [] := List.length_eq_zero.mp hl
        simp [hl, this]
      · simp [hl, addMarkersLoop_pos]

lemma updateMap_markers_scores (data : SearchResponse) (st : MapState) :
    (updateMap data st).markers.map MarkerObj.popupScore =
      ((hitsOf data).filter geoValid).map (fun h => jsToFixed 2 h._score) := by
  unfold updateMap hitsOf
  cases hd : data.hits with
  | none => simp
  | some w =>
      by_cases hl : w.hits.length = 0
      · have : w.hits = [] := List.length_eq_zero.mp hl
        simp [hl, this]
      · simp [hl, addMarkersLoop_scores]

lemma updateMap_viewport_cases (data : SearchResponse) (st : MapState) :
    (updateMap data st).viewport = st.viewport ∨
      (updateMap data st).viewport =
        .fitted (((hitsOf data).filter geoValid).map gpPos) := by
  unfold updateMap hitsOf
  cases hd : data.hits with
  | none => simp
  | some w =>
      by_cases hl : w.hits.length = 0
      · simp [hl]
      · by_cases hb : (addMarkersLoop w.hits st.nextId).2.1.length > 0
        · right
          simp only [hl, ite_false, if_neg]
          rw [if_pos hb, addMarkersLoop_bounds]
        · left
          simp only [hl, ite_false, if_neg]
          rw [if_neg hb]

lemma updateMap_old_marker_gone (data : SearchResponse) (st : MapState)
    (hfresh : ∀ m ∈ st.markers, m.id < st.nextId) :
    ∀ m ∈ st.markers,
      m ∉ (updateMap data st).mapLayers ∧ m ∉ (updateMap data st).markers := by
  intro m hm
  have hclr : m ∉ st.mapLayers.filter fun l =>
      st.markers.all fun o => o.id != l.id := by
    intro hmem
    have := (List.mem_filter.mp hmem).2
    have := (List.all_eq_true.mp this) m hm
    simp at this
  have hnew : ∀ k, m ∉ (addMarkersLoop k st.nextId).1 := by
    intro k hmem
    exact absurd (addMarkersLoop_id_ge k st.nextId m hmem)
      (Nat.not_le.mpr (hfresh m hm))
  unfold updateMap
  cases hd : data.hits with
  | none => exact ⟨hclr, by simp⟩
  | some w =>
      by_cases hl : w.hits.length = 0
      · simp only [hl, if_pos]
        exact ⟨hclr, by simp⟩
      · simp only [hl, if_neg, ite_false]
        refine ⟨fun hmem => ?_, hnew w.hits⟩
        rcases List.mem_append.mp hmem with hmem | hmem
        · exact hclr hmem
        · exact hnew w.hits hmem

lemma updateMap_markers_length (data : SearchResponse) (st : MapState) :
    (updateMap data st).markers.length =
      ((hitsOf data).filter geoValid).length := by
  have h := congrArg List.length (updateMap_markers_pos data st)
  simpa using h

/-! ### Structure lemmas about `displayResults` and the toggle -/

lemma displayResults_eq_cards (data : SearchResponse) (w : HitsObj)
    (hw : data.hits = some w) (hne : w.hits.length ≠ 0) :
    displayResults data =
      (.cardList (w.hits.map mkCard),
       toString w.hits.length ++ " results found") := by
  unfold displayResults
  rw [hw]
  simp [hne]

lemma toggleReadMore_other (doms : List CardDom) (j k : ℕ) (h : j ≠ k) :
    (toggleReadMore doms j)[k]? = doms[k]? := by
  induction doms generalizing j k with
  | nil => simp [toggleReadMore]
  | cons c cs ih =>
      cases j with
      | zero =>
          cases k with
          | zero => exact absurd rfl h
          | succ k => simp [toggleReadMore]
      | succ j =>
          cases k with
          | zero => simp [toggleReadMore]
          | succ k =>
              simp only [toggleReadMore, List.getElem?_cons_succ]
              exact ih j k (fun hh => h (by rw [hh]))

lemma handleAutocomplete_fst (value : String) (net : FetchResult) :
    (handleAutocomplete value net).1 =
      if (jsTrim value).length < 3 then none else some (jsTrim value) := by
  unfold handleAutocomplete
  by_cases h : (jsTrim value).length < 3
  · rw [if_pos h, if_pos h]
  · rw [if_neg h, if_neg h]
    cases net with
    | failure => rfl
    | ok data =>
        cases hd : data.hits with
        | none => simp [hd]
        | some w => by_cases hw : w.hits.length > 0 <;> simp [hd, hw]

lemma toggleReadMore_roundtrip (doms : List CardDom)
    (h : ∀ d ∈ doms, d = initCardDom) (j : ℕ) :
    toggleReadMore (toggleReadMore doms j) j = doms := by
  induction doms generalizing j with
  | nil => simp [toggleReadMore]
  | cons c cs ih =>
      cases j with
      | zero =>
          have hc : c = initCardDom := h c (List.mem_cons_self c cs)
          subst hc
          simp [toggleReadMore, toggleCard, initCardDom]
      | succ j =>
          simp only [toggleReadMore, List.cons.injEq, true_and]
          exact ih (fun d hd => h d (List.mem_cons_of_mem c hd)) j

/-! ### Concrete fixtures used by witnesses and counterexamples -/

/-- A page state as after `initializeMap` with an empty result panel. -/
def pg0 : PageState :=
  { resultsView := .emptyState "No results found", resultCount := ""
    mapSt := initializeMap }

/-- The spec's example hit: `geopoint {lat:31.5, lon:35.1}`,
`_score = 7.891`, `title "X"`, `date "2020-01-01"`. -/
def specHit : Hit :=
  { _score := mkRat 7891 1000
    _source :=
      { title := some "X", content := some "Body", date := some "2020-01-01"
        authors := some [⟨"Ada", "Lovelace"⟩]
        geopoint := some ⟨mkRat 315 10, mkRat 351 10⟩
        georeferences := none, temporalExpressions := none } }

/-- A one-hit Elasticsearch-style response around `specHit`. -/
def specResp : SearchResponse := { hits := some ⟨[specHit]⟩, results := none }

/-- A document for the flat `{results:[...]}` response shape. -/
def sampleDoc : Source :=
  { title := some "Doc", content := some "Body", date := some "2020-01-01"
    authors := none, geopoint := some ⟨mkRat 315 10, mkRat 351 10⟩
    georeferences := none, temporalExpressions := none }

/-- A response carrying its documents only under a top-level `results`
field, with no `hits` field. -/
def flatResp : SearchResponse := { hits := none, results := some [sampleDoc] }

/-- A hit whose content string is present but empty. -/
def emptyContentHit : Hit :=
  { _score := 1
    _source :=
      { title := some "T", content := some "", date := none
        authors := none, geopoint := none
        georeferences := none, temporalExpressions := none } }

/-- A one-hit response around `emptyContentHit`. -/
def emptyContentResp : SearchResponse :=
  { hits := some ⟨[emptyContentHit]⟩, results := none }

/-- A 301-character content string (strictly over the 300 budget). -/
def longContent : String := String.mk (List.replicate 301 'a')

/-- A hit carrying `longContent`. -/
def longHit : Hit :=
  { _score := 2
    _source :=
      { title := none, content := some longContent, date := none
        authors := none, geopoint := none
        georeferences := none, temporalExpressions := none } }

/-- A one-hit response around `longHit`. -/
def longResp : SearchResponse := { hits := some ⟨[longHit]⟩, results := none }

/-- A spatiotemporal form whose end date and place name are missing. -/
def f1 : SearchForm :=
  { searchInput := " water ", searchType := "spatiotemporal", latInput := ""
    lonInput := "", georefInput := "Nablus", startDate := "2020-01-01"
    endDate := "", distanceInput := "" }

/-- A complete spatiotemporal form with lat, lon and distance left
empty. -/
def f2 : SearchForm :=
  { searchInput := "water", searchType := "spatiotemporal", latInput := ""
    lonInput := "", georefInput := " Nablus ", startDate := "2020-01-01"
    endDate := "2021-01-01", distanceInput := "" }

/-- A hit with a geopoint sitting exactly on the equator (`lat = 0`). -/
def zeroLatHit : Hit :=
  { _score := 3
    _source :=
      { title := some "Equator", content := none, date := none
        authors := none, geopoint := some ⟨0, 5⟩
        georeferences := none, temporalExpressions := none } }

/-- A response mixing a zero-latitude hit with an ordinary valid hit. -/
def mixedResp : SearchResponse :=
  { hits := some ⟨[zeroLatHit, specHit]⟩, results := none }

/-- A map state owning one marker from a previous search. -/
def st3 : MapState :=
  { mapLayers := [{ id := 0, pos := (1, 2), popupTitle := "Old"
                    popupDate := .na, popupScore := "1.00" }]
    markers := [{ id := 0, pos := (1, 2), popupTitle := "Old"
                  popupDate := .na, popupScore := "1.00" }]
    nextId := 1
    viewport := .fitted [(1, 2)] }

/-- Event classifier: is the event the busy-indicator `showLoading`? -/
def isShowLoading : Ev → Bool
  | .showLoading => true
  | _ => false

/-- Event classifier: is the event the busy-indicator `hideLoading`? -/
def isHideLoading : Ev → Bool
  | .hideLoading => true
  | _ => false

/-- Event classifier: is the event a dispatched `fetch`? -/
def isFetch : Ev → Bool
  | .fetchReq _ => true
  | _ => false

/-! ### Claim theorems -/

/-- C1: in spatiotemporal mode, a submission with an empty start date,
end date, or place name shows the validation alert, issues no HTTP
request, and leaves the result list and the marker set unchanged. -/
theorem spatiotemporal_missing_field_aborts (f : SearchForm)
    (net : FetchResult) (pg : PageState)
    (hq : jsTrim f.searchInput ≠ "") (hm : f.searchType = "spatiotemporal")
    (hmiss : f.startDate = "" ∨ f.endDate = "" ∨ jsTrim f.georefInput = "") :
    (performSearch f net pg).1 =
      [.showLoading, .hideAutocompletePanel,
       .alert "For spatiotemporal search, please provide required fields",
       .hideLoading] ∧
    (∀ r, Ev.fetchReq r ∉ (performSearch f net pg).1) ∧
    (performSearch f net pg).2 = pg := by
  have ht : f.searchType ≠ "text" := by rw [hm]; decide
  simp only [performSearch]
  rw [if_neg hq, if_neg ht, if_pos hmiss]
  refine ⟨rfl, fun r => by simp, rfl⟩

/-- C1 witness: the concrete form `f1` (missing end date) aborts with
the validation alert. -/
theorem spatiotemporal_missing_field_aborts_witness :
    (performSearch f1 .failure pg0).1 =
      [.showLoading, .hideAutocompletePanel,
       .alert "For spatiotemporal search, please provide required fields",
       .hideLoading] :=
  (spatiotemporal_missing_field_aborts f1 .failure pg0 (by decide) rfl
    (Or.inr (Or.inl rfl))).1

/-- C2: a complete spatiotemporal submission with empty lat, lon and
distance fields dispatches exactly one request, to `/spatiotemporal`,
carrying the default coordinates 32.2211/35.2544 and the default
radius `500km` together with the entered query, start, end and georef
values. -/
theorem spatiotemporal_default_coordinates (f : SearchForm)
    (net : FetchResult) (pg : PageState)
    (hq : jsTrim f.searchInput ≠ "") (hm : f.searchType = "spatiotemporal")
    (hs : f.startDate ≠ "") (he : f.endDate ≠ "")
    (hg : jsTrim f.georefInput ≠ "")
    (hlat : f.latInput = "") (hlon : f.lonInput = "")
    (hd : f.distanceInput = "") :
    Ev.fetchReq
      { endpoint := .spatiotemporal
        params := [("q", jsTrim f.searchInput), ("start", f.startDate),
                   ("end", f.endDate), ("lat", "32.2211"),
                   ("lon", "35.2544"), ("distance", "500km"),
                   ("georef", jsTrim f.georefInput)] }
      ∈ (performSearch f net pg).1 ∧
    (∀ r, Ev.fetchReq r ∈ (performSearch f net pg).1 →
      r = { endpoint := .spatiotemporal
            params := [("q", jsTrim f.searchInput), ("start", f.startDate),
                       ("end", f.endDate), ("lat", "32.2211"),
                       ("lon", "35.2544"), ("distance", "500km"),
                       ("georef", jsTrim f.georefInput)] }) := by
  have ht : f.searchType ≠ "text" := by rw [hm]; decide
  have hms : ¬ (f.startDate = "" ∨ f.endDate = "" ∨ jsTrim f.georefInput = "") := by
    push_neg
    exact ⟨hs, he, hg⟩
  simp only [performSearch]
  rw [if_neg hq, if_neg ht, if_neg hms, hlat, hlon, hd]
  cases net <;> simp

/-- C2 witness: the concrete form `f2` dispatches the request with the
default coordinate pair and radius. -/
theorem spatiotemporal_default_coordinates_witness :
    Ev.fetchReq
      { endpoint := .spatiotemporal
        params := [("q", "water"), ("start", "2020-01-01"),
                   ("end", "2021-01-01"), ("lat", "32.2211"),
                   ("lon", "35.2544"), ("distance", "500km"),
                   ("georef", "Nablus")] }
      ∈ (performSearch f2 .failure pg0).1 :=
  (spatiotemporal_default_coordinates f2 .failure pg0 (by decide) rfl
    (by decide) (by decide) (by decide) rfl rfl rfl).1

/-- C9: any submission passing the non-empty-query check shows the
busy indicator and hides the autocomplete panel first, hides the busy
indicator exactly once on every completion path, dispatches at most
one request, and on transport/parse failure additionally shows the
backend-unreachable alert. -/
theorem search_busy_indicator_paths (f : SearchForm) (net : FetchResult)
    (pg : PageState) (hq : jsTrim f.searchInput ≠ "") :
    ((performSearch f net pg).1.take 2 =
      [.showLoading, .hideAutocompletePanel]) ∧
    ((performSearch f net pg).1.countP isShowLoading = 1) ∧
    ((performSearch f net pg).1.countP isHideLoading = 1) ∧
    ((performSearch f net pg).1.countP isFetch ≤ 1) ∧
    (net = .failure → (∃ r, Ev.fetchReq r ∈ (performSearch f net pg).1) →
      Ev.alert "Search failed. Please make sure the backend is running."
        ∈ (performSearch f net pg).1) := by
  simp only [performSearch]
  rw [if_neg hq]
  by_cases ht : f.searchType = "text"
  · rw [if_pos ht]
    cases net <;>
      simp [List.countP_cons, isShowLoading, isHideLoading, isFetch]
  · rw [if_neg ht]
    by_cases hms : f.startDate = "" ∨ f.endDate = "" ∨ jsTrim f.georefInput = ""
    · rw [if_pos hms]
      cases net <;>
        simp [List.countP_cons, isShowLoading, isHideLoading, isFetch]
    · rw [if_neg hms]
      cases net <;>
        simp [List.countP_cons, isShowLoading, isHideLoading, isFetch]

/-- C9 witness: on the concrete form `f2` with a failing transport the
trace starts with the busy indicator and the autocomplete hide. -/
theorem search_busy_indicator_paths_witness :
    (performSearch f2 .failure pg0).1.take 2 =
      [.showLoading, .hideAutocompletePanel] :=
  (search_busy_indicator_paths f2 .failure pg0 (by decide)).1

/-- C3: after `updateMap`, the owned marker set holds exactly one
marker per hit with a valid coordinate pair — in result-set order and
at those coordinates — and every previously owned marker is gone both
from the map layers and from the owned set, whether or not the new
result set is empty. The freshness hypothesis records that all owned
markers were created by earlier `updateMap`/`L.marker` calls. -/
theorem updateMap_full_replace (data : SearchResponse) (st : MapState)
    (hfresh : ∀ m ∈ st.markers, m.id < st.nextId) :
    ((updateMap data st).markers.map MarkerObj.pos =
      ((hitsOf data).filter geoValid).map gpPos) ∧
    ((updateMap data st).markers.length =
      ((hitsOf data).filter geoValid).length) ∧
    (∀ m ∈ st.markers,
      m ∉ (updateMap data st).mapLayers ∧ m ∉ (updateMap data st).markers) :=
  ⟨updateMap_markers_pos data st, updateMap_markers_length data st,
   updateMap_old_marker_gone data st hfresh⟩

/-- C3 witness: on a response with one valid and one zero-coordinate
hit, against a state owning one old marker, the new owned set is the
one marker at the valid hit's coordinates. -/
theorem updateMap_full_replace_witness :
    (updateMap mixedResp st3).markers.map MarkerObj.pos =
      ((hitsOf mixedResp).filter geoValid).map gpPos :=
  (updateMap_full_replace mixedResp st3 (by decide)).1

/-- C5: for the response `{hits:{hits:[]}}` and for any response
lacking a `hits` field, `displayResults` shows the "No results found"
empty state and clears the result-count text, and `updateMap` leaves
the owned marker set empty and the viewport unchanged. -/
theorem empty_response_empty_state (data : SearchResponse) (st : MapState)
    (h : data.hits = none ∨ data.hits = some ⟨[]⟩) :
    displayResults data = (.emptyState "No results found", "") ∧
    (updateMap data st).markers = [] ∧
    (updateMap data st).viewport = st.viewport := by
  have hdisp : displayResults data = (.emptyState "No results found", "") := by
    unfold displayResults
    rcases h with h | h <;> rw [h] <;> simp
  have hmap : (updateMap data st).markers = [] ∧
      (updateMap data st).viewport = st.viewport := by
    unfold updateMap
    rcases h with h | h <;> rw [h] <;> simp
  exact ⟨hdisp, hmap.1, hmap.2⟩

/-- C5 witness: the literal empty response yields the empty state. -/
theorem empty_response_empty_state_witness :
    displayResults { hits := some ⟨[]⟩, results := none } =
      (.emptyState "No results found", "") :=
  (empty_response_empty_state { hits := some ⟨[]⟩, results := none }
    initializeMap (Or.inr rfl)).1

/-- C6: when the trimmed query is shorter than 3 characters,
`handleAutocomplete` hides the panel and issues no request; a request
is issued exactly when the trimmed length is at least 3, and it
carries the trimmed query. -/
theorem autocomplete_min_length (value : String) (net : FetchResult) :
    ((jsTrim value).length < 3 →
      handleAutocomplete value net = (none, .hidden)) ∧
    (∀ q, (handleAutocomplete value net).1 = some q →
      3 ≤ (jsTrim value).length ∧ q = jsTrim value) := by
  constructor
  · intro h
    unfold handleAutocomplete
    rw [if_pos h]
  · intro q hq
    rw [handleAutocomplete_fst] at hq
    by_cases h : (jsTrim value).length < 3
    · rw [if_pos h] at hq
      exact absurd hq (by simp)
    · rw [if_neg h] at hq
      exact ⟨Nat.not_lt.mp h, (Option.some.injEq _ _ ▸ hq).symm⟩

/-- C6 witness: a two-character query issues no request and hides the
panel. -/
theorem autocomplete_min_length_witness :
    handleAutocomplete "  ab  " .failure = (none, .hidden) :=
  (autocomplete_min_length "  ab  " .failure).1 (by decide)

/-- C7: the score printed on a hit's result card is
`toFixed(2)` of its `_score`, every marker popup prints `toFixed(2)`
of its hit's `_score` (so card and popup agree), and 7.891 renders as
"7.89". -/
theorem score_two_decimals (data : SearchResponse) (w : HitsObj) (i : ℕ)
    (hit : Hit) (st : MapState)
    (hw : data.hits = some w) (hi : w.hits[i]? = some hit) :
    (∃ cards cnt, displayResults data = (.cardList cards, cnt) ∧
      cards[i]? = some (mkCard hit) ∧
      (mkCard hit).score = jsToFixed 2 hit._score) ∧
    ((updateMap data st).markers.map MarkerObj.popupScore =
      ((hitsOf data).filter geoValid).map (fun h => jsToFixed 2 h._score)) ∧
    jsToFixed 2 (mkRat 7891 1000) = "7.89" := by
  have hne : w.hits.length ≠ 0 := by
    intro h0
    rw [List.length_eq_zero.mp h0] at hi
    simp at hi
  refine ⟨⟨w.hits.map mkCard, toString w.hits.length ++ " results found",
    displayResults_eq_cards data w hw hne, ?_, rfl⟩,
    updateMap_markers_scores data st, by decide⟩
  rw [List.getElem?_map, hi]
  rfl

/-- C7 witness: on the spec's example hit (score 7.891, geopoint
31.5/35.1) the marker popup score list is exactly the card score. -/
theorem score_two_decimals_witness :
    ((updateMap specResp initializeMap).markers.map MarkerObj.popupScore =
      ((hitsOf specResp).filter geoValid).map (fun h => jsToFixed 2 h._score)) ∧
    jsToFixed 2 (mkRat 7891 1000) = "7.89" :=
  (score_two_decimals specResp ⟨[specHit]⟩ 0 specHit initializeMap rfl rfl).2

/-- C10: a hit whose geopoint has latitude 0 or longitude 0 fails the
truthiness validity test despite the geopoint object being present, so
`updateMap` creates no marker for it and its position enters neither
the marker list nor the bounds the viewport is fitted to. -/
theorem zero_coordinate_no_marker (data : SearchResponse) (st : MapState)
    (hit : Hit) (gp : Geopoint)
    (hmem : hit ∈ hitsOf data) (hgp : hit._source.geopoint = some gp)
    (hzero : gp.lat = 0 ∨ gp.lon = 0) :
    geoValid hit = false ∧
    hit ∉ (hitsOf data).filter geoValid ∧
    ((updateMap data st).markers.map MarkerObj.pos =
      ((hitsOf data).filter geoValid).map gpPos) ∧
    ((updateMap data st).viewport = st.viewport ∨
      (updateMap data st).viewport =
        .fitted (((hitsOf data).filter geoValid).map gpPos)) := by
  have hv : geoValid hit = false := by
    unfold geoValid
    rw [hgp]
    rcases hzero with h | h <;> simp [h]
  refine ⟨hv, ?_, updateMap_markers_pos data st,
    updateMap_viewport_cases data st⟩
  intro hmem2
  have hvalid := (List.mem_filter.mp hmem2).2
  rw [hv] at hvalid
  exact absurd hvalid (by simp)

/-- C10 witness: the equator hit (lat = 0) of `mixedResp` produces no
marker: only the valid hit's coordinates appear. -/
theorem zero_coordinate_no_marker_witness :
    geoValid zeroLatHit = false ∧
    ((updateMap mixedResp initializeMap).markers.map MarkerObj.pos =
      ((hitsOf mixedResp).filter geoValid).map gpPos) :=
  ⟨(zero_coordinate_no_marker mixedResp initializeMap zeroLatHit ⟨0, 5⟩
      (by decide) rfl (Or.inl rfl)).1,
   (zero_coordinate_no_marker mixedResp initializeMap zeroLatHit ⟨0, 5⟩
      (by decide) rfl (Or.inl rfl)).2.2.1⟩

/-- C4 counterexample: a hit whose content string is `""` (length 0,
so ≤ 300) renders a card displaying the fallback text
"No content available", not the content in full. -/
theorem empty_content_fallback_counterexample :
    emptyContentHit._source.content = some "" ∧
    ("" : String).length ≤ 300 ∧
    (displayResults emptyContentResp).1 =
      ResultsView.cardList [mkCard emptyContentHit] ∧
    displayedText (mkCard emptyContentHit) initCardDom =
      "No content available" ∧
    "No content available" ≠ "" :=
  ⟨rfl, by decide, by decide, by decide, by decide⟩

/-- C4 (amended): for a hit with a non-empty content string of length
≤ 300 the card displays the content in full and renders no Read More
control (while an empty content string displays the fallback text);
for length > 300 the card shows the first 300 characters plus an
ellipsis with the toggle, toggling twice restores the initial
displayed text and the initial "Read More" label, and toggling one
card never touches another card's state. -/
theorem readmore_truncation_toggle (data : SearchResponse) (w : HitsObj)
    (i : ℕ) (hit : Hit) (c : String)
    (hw : data.hits = some w) (hi : w.hits[i]? = some hit)
    (hc : hit._source.content = some c) :
    (∃ cards cnt, displayResults data = (.cardList cards, cnt) ∧
      cards[i]? = some (mkCard hit)) ∧
    (c ≠ "" → c.length ≤ 300 →
      displayedText (mkCard hit) initCardDom = c ∧
      (mkCard hit).hasReadMore = false) ∧
    (300 < c.length →
      displayedText (mkCard hit) initCardDom = c.take 300 ++ "..." ∧
      (mkCard hit).full = c ∧
      (mkCard hit).hasReadMore = true ∧
      initCardDom.buttonLabel = "Read More" ∧
      displayedText (mkCard hit) (toggleCard initCardDom) = c ∧
      (toggleCard initCardDom).buttonLabel = "Read Less" ∧
      toggleCard (toggleCard initCardDom) = initCardDom) ∧
    (∀ doms j k, j ≠ k → (toggleReadMore doms j)[k]? = doms[k]?) ∧
    (∀ doms : List CardDom, (∀ d ∈ doms, d = initCardDom) →
      ∀ j, toggleReadMore (toggleReadMore doms j) j = doms) := by
  have hne : w.hits.length ≠ 0 := by
    intro h0
    rw [List.length_eq_zero.mp h0] at hi
    simp at hi
  refine ⟨⟨w.hits.map mkCard, toString w.hits.length ++ " results found",
    displayResults_eq_cards data w hw hne, ?_⟩, ?_, ?_,
    fun doms j k h => toggleReadMore_other doms j k h,
    fun doms h j => toggleReadMore_roundtrip doms h j⟩
  · rw [List.getElem?_map, hi]
    rfl
  · intro hc0 hle
    have h300 : ¬ (300 < c.length) := by omega
    constructor
    · simp [displayedText, initCardDom, mkCard, hc, jsOrStr, hc0, h300]
    · simp [mkCard, hc, jsOrStr, hc0, h300]
  · intro hgt
    have hc0 : c ≠ "" := by
      intro he
      rw [he] at hgt
      simp at hgt
    refine ⟨?_, ?_, ?_, rfl, ?_, rfl, by decide⟩
    · simp [displayedText, initCardDom, mkCard, hc, jsOrStr, hc0, hgt]
    · simp [mkCard, hc, jsOrStr, hc0]
    · simp [mkCard, hc, jsOrStr, hc0, hgt]
    · simp [displayedText, toggleCard, initCardDom, mkCard, hc, jsOrStr, hc0]

set_option maxRecDepth 4000 in
/-- C4 witness: the 301-character content hit is truncated to 300
characters plus an ellipsis, carries the toggle, and toggling twice
restores the initial state. -/
theorem readmore_truncation_toggle_witness :
    displayedText (mkCard longHit) initCardDom = longContent.take 300 ++ "..." ∧
    (mkCard longHit).full = longContent ∧
    (mkCard longHit).hasReadMore = true ∧
    initCardDom.buttonLabel = "Read More" ∧
    displayedText (mkCard longHit) (toggleCard initCardDom) = longContent ∧
    (toggleCard initCardDom).buttonLabel = "Read Less" ∧
    toggleCard (toggleCard initCardDom) = initCardDom :=
  (readmore_truncation_toggle longResp ⟨[longHit]⟩ 0 longHit longContent
    rfl rfl rfl).2.2.1 (by decide)

/-- C8 counterexample: a response carrying its documents only under a
top-level `results` field is rendered as the "No results found" empty
state with an empty marker set, not as cards and markers. -/
theorem flat_results_counterexample :
    flatResp.hits = none ∧
    flatResp.results = some [sampleDoc] ∧
    displayResults flatResp = (.emptyState "No results found", "") ∧
    (updateMap flatResp initializeMap).markers = [] :=
  ⟨rfl, rfl, by decide, by decide⟩

/-- C8 (amended): the client accepts only the Elasticsearch-style
`{hits:{hits:[...]}}` shape; any response without a `hits` field —
including one carrying documents under a top-level `results` field —
is rendered as the empty state with no markers. -/
theorem hits_shape_only (data : SearchResponse) (st : MapState)
    (h : data.hits = none) :
    displayResults data = (.emptyState "No results found", "") ∧
    (updateMap data st).markers = [] ∧
    (updateMap data st).viewport = st.viewport := by
  refine ⟨?_, ?_, ?_⟩
  · unfold displayResults
    rw [h]
  · unfold updateMap
    rw [h]
  · unfold updateMap
    rw [h]

/-- C8 witness: the concrete flat-shape response renders as the empty
state. -/
theorem hits_shape_only_witness :
    displayResults flatResp = (.emptyState "No results found", "") :=
  (hits_shape_only flatResp initializeMap rfl).1

end SmartDocs
